import Mathlib

/-!
Verification of the SoulMatch bot (src/dating_bot.py) against its
specification.

The SQLite tables become lists of rows kept in insertion order, so that
`SELECT ... LIMIT 1` without `ORDER BY` becomes `List.find?` (SQLite scans in
storage order), `DELETE ... WHERE` becomes `List.filter`, and `INSERT` appends.
`INTEGER PRIMARY KEY` allocation follows the SQLite rule: largest existing id
plus one, starting at 1.  Python's `int(...)`, `str.isdigit`, `str.strip` and
`str.split(":", 1)` are embedded on ASCII inputs by structurally recursive
functions, so the kernel can evaluate them on concrete data.  Row timestamps
(`created_at`, `last_active`) are omitted: no query in the program reads them.
-/

namespace SoulMatch

/-- A row of the `users` table. -/
structure UserRow where
  id : Int
  tg_id : Int
  username : Option String
  name : Option String
  is_banned : Int
  deriving DecidableEq, Repr

/-- A row of the `profiles` table (nullable columns are `Option`). -/
structure ProfileRow where
  user_id : Int
  age : Option Nat
  gender : Option String
  bio : Option String
  photo_file_id : Option String
  deriving DecidableEq, Repr

/-- A row of the `likes` table. -/
structure LikeRow where
  from_user : Int
  to_user : Int
  deriving DecidableEq, Repr

/-- A row of the `matches` table (`active` defaults to 1 on insert). -/
structure MatchRow where
  a : Int
  b : Int
  active : Int
  deriving DecidableEq, Repr

/-- A row of the `reports` table. -/
structure ReportRow where
  reporter_id : Int
  reported_id : Int
  reason : String
  deriving DecidableEq, Repr

/-- The whole persistent store, each table in storage (insertion) order. -/
structure DB where
  users : List UserRow
  profiles : List ProfileRow
  likes : List LikeRow
  «matches» : List MatchRow
  reports : List ReportRow
  deriving DecidableEq, Repr

/-- The freshly initialised database. -/
def emptyDB : DB := ⟨[], [], [], [], []⟩

/-- The external (Telegram) identity attached to an inbound event. -/
structure TgUser where
  id : Int
  username : Option String
  first_name : Option String
  last_name : Option String
  deriving DecidableEq, Repr

/-- Whitespace test used by the embedding of Python `str.strip`. -/
def isSpaceChar (c : Char) : Bool :=
  c == ' ' || c == '\t' || c == '\n' || c == '\r'

/-- Embedding of Python `str.strip` (ASCII whitespace). -/
def pyStrip (s : String) : String :=
  ⟨((s.data.dropWhile isSpaceChar).reverse.dropWhile isSpaceChar).reverse⟩

/-- Decimal accumulator over ASCII digits. -/
def digitsVal : List Char → Nat → Nat
  | [], acc => acc
  | c :: rest, acc => digitsVal rest (acc * 10 + (c.toNat - 48))

/-- Decimal value of a nonempty all-digit character list, else `none`. -/
def digitsToNat? (cs : List Char) : Option Nat :=
  if !cs.isEmpty && cs.all Char.isDigit then some (digitsVal cs 0) else none

/-- Embedding of Python `int(...)` on canonical decimal strings
(optional leading minus sign, then ASCII digits); anything else fails. -/
def pyInt? (s : String) : Option Int :=
  match s.data with
  | '-' :: rest => (digitsToNat? rest).map (fun n => -(n : Int))
  | cs => (digitsToNat? cs).map (fun n => (n : Int))

/-- Embedding of Python `str.isdigit` (ASCII digits). -/
def pyIsDigit (s : String) : Bool :=
  !s.data.isEmpty && s.data.all Char.isDigit

/-- Python `a or b` on strings: `b` when `a` is empty (falsy), else `a`. -/
def pyOr (a b : String) : String :=
  if a == "" then b else a

/-- Telegram marks a message as a command when its text starts with `/`. -/
def isCommandText (s : String) : Bool :=
  match s.data with
  | c :: _ => c == '/'
  | [] => false

/-- SQLite rowid allocation for `users`: largest existing id plus one. -/
def allocId (us : List UserRow) : Int :=
  (us.foldl (fun m u => max m u.id) 0) + 1

/-- The display-name fallback computed in `ensure_user`:
`f"{first} {last}".strip() or tg_user.username or ""`. -/
def deriveName (tg : TgUser) : String :=
  pyOr (pyStrip ((tg.first_name.getD "") ++ " " ++ (tg.last_name.getD ""))) (tg.username.getD "")

/-- Embedding of `ensure_user`: look the Telegram id up in `users`; if absent,
insert a row with the derived display name.  Returns the internal id and the
updated store. -/
def ensure_user (db : DB) (tg : TgUser) : Int × DB :=
  match db.users.find? (fun u => u.tg_id == tg.id) with
  | some u => (u.id, db)
  | none =>
    let newId := allocId db.users
    (newId, { db with users := db.users ++ [⟨newId, tg.id, tg.username, some (deriveName tg), 0⟩] })

/-- Number of `users` rows carrying a given Telegram id. -/
def countUsersTg (db : DB) (i : Int) : Nat :=
  db.users.countP (fun u => u.tg_id == i)

/-- Does a `likes` row `(f, t)` exist?  (`SELECT 1 FROM likes WHERE from_user = ? AND to_user = ?`) -/
def likeExists (db : DB) (f t : Int) : Bool :=
  db.likes.any (fun l => l.from_user == f && l.to_user == t)

/-- Number of `likes` rows for the exact ordered pair `(f, t)`. -/
def countLike (db : DB) (f t : Int) : Nat :=
  db.likes.countP (fun l => l.from_user == f && l.to_user == t)

/-- Does a `matches` row exist for the unordered pair, in either orientation?
(`SELECT 1 FROM matches WHERE (a = ? AND b = ?) OR (a = ? AND b = ?)`) -/
def matchExists (db : DB) (f t : Int) : Bool :=
  db.matches.any (fun m => (m.a == f && m.b == t) || (m.a == t && m.b == f))

/-- Number of `matches` rows for the unordered pair `{f, t}`. -/
def countMatch (db : DB) (f t : Int) : Nat :=
  db.matches.countP (fun m => (m.a == f && m.b == t) || (m.a == t && m.b == f))

/-- Check-then-insert of a like row, as in the `like` branch of
`callback_query_handler`. -/
def insertLike (db : DB) (f t : Int) : DB :=
  if likeExists db f t then db
  else { db with likes := db.likes ++ [⟨f, t⟩] }

/-- Insert a `matches` row `(f, t, active = 1)` unless one already exists in
either orientation. -/
def matchIfAbsent (db : DB) (f t : Int) : DB :=
  if matchExists db f t then db
  else { db with «matches» := db.matches ++ [⟨f, t, 1⟩] }

/-- The store effect of the `like` branch of `callback_query_handler`
(the spec's RecordLike): check-then-insert the like, then, when the
reciprocal like is visible in the updated store, ensure a match row exists. -/
def recordLike (db : DB) (f t : Int) : DB :=
  if likeExists (insertLike db f t) t f then matchIfAbsent (insertLike db f t) f t
  else insertLike db f t

/-- Telegram id of the user with a given internal id, when that row exists. -/
def lookupTgId (db : DB) (i : Int) : Option Int :=
  (db.users.find? (fun u => u.id == i)).map (fun u => u.tg_id)

/-- Split at the first `:`; `none` when there is no colon
(Python `data.split(":", 1)` then unpacking into two names). -/
def splitColon : List Char → Option (List Char × List Char)
  | [] => none
  | c :: cs =>
    if c == ':' then some ([], cs)
    else
      match splitColon cs with
      | none => none
      | some (a, b) => some (c :: a, b)

/-- Payload parse in `callback_query_handler`: `data.split(":", 1)` followed
by `int(target_str)`; any failure is caught and reported as unrecognized. -/
def parseCallback (data : String) : Option (String × Int) :=
  match splitColon data.data with
  | none => none
  | some (a, b) =>
    match pyInt? ⟨b⟩ with
    | none => none
    | some n => some (⟨a⟩, n)

/-- Observable outcome of a button press.  `matchMade notify` carries the
Telegram id the match notification is attempted to, when the target user row
exists. -/
inductive CallbackRes
  | notRecognized (msg : String)
  | skipped (msg : String)
  | waiting (msg : String)
  | matchMade (msg : String) (notify : Option Int)
  | unknownAction (msg : String)
  deriving DecidableEq, Repr

/-- The `like` branch of `callback_query_handler`: record the like and,
when it completes a mutual pair, ensure the match row and answer with the
match message carrying the attempted notification target. -/
def likeAction (db1 : DB) (f t : Int) : DB × CallbackRes :=
  if likeExists (insertLike db1 f t) t f then
    (matchIfAbsent (insertLike db1 f t) f t,
     .matchMade "🎉 It\x27s a MATCH! You can now chat anonymously via the bot."
       (lookupTgId (matchIfAbsent (insertLike db1 f t) f t) t))
  else (insertLike db1 f t, .waiting "Liked! Waiting for a mutual like.")

/-- Embedding of `callback_query_handler`: parse the payload, resolve the
presser, then dispatch on the action tag. -/
def callbackStep (db : DB) (tg : TgUser) (data : String) : DB × CallbackRes :=
  match parseCallback data with
  | none => (db, .notRecognized "Sorry, action not recognized. Please try /find again.")
  | some (action, target_id) =>
    if action == "skip" then ((ensure_user db tg).2, .skipped "Skipped! Use /find to see other profiles.")
    else if action == "like" then likeAction (ensure_user db tg).2 (ensure_user db tg).1 target_id
    else ((ensure_user db tg).2, .unknownAction "Unknown action. Use /find to try again.")

/-- A whole sequence of button presses, each by some identity with some
payload. -/
def runCallbacks (db : DB) : List (TgUser × String) → DB
  | [] => db
  | (tg, data) :: rest => runCallbacks (callbackStep db tg data).1 rest

/-- Outcome of `/find`. -/
inductive FindRes
  | tryLater (msg : String)
  | candidate (uid : Int) (age : Option Nat) (gender : Option String)
      (bio : Option String) (photo : Option String)
      (username : Option String) (name : Option String)
  deriving DecidableEq, Repr

/-- The row predicate of the `/find` query: a different user's profile, not
already liked by the requester, joined to its `users` row. -/
def findPred (db : DB) (me : Int) (p : ProfileRow) : Bool :=
  !(p.user_id == me)
    && !(db.likes.any (fun l => l.from_user == me && l.to_user == p.user_id))
    && db.users.any (fun u => u.id == p.user_id)

/-- Embedding of `find_handler`: resolve the requester, then take the first
profile row (storage order, `LIMIT 1`) satisfying the query predicate. -/
def find_handler (db : DB) (tg : TgUser) : DB × FindRes :=
  match (ensure_user db tg).2.profiles.find? (findPred (ensure_user db tg).2 (ensure_user db tg).1) with
  | none => ((ensure_user db tg).2, .tryLater "No profiles available right now. Try again later.")
  | some p =>
    match (ensure_user db tg).2.users.find? (fun u => u.id == p.user_id) with
    | none => ((ensure_user db tg).2, .tryLater "No profiles available right now. Try again later.")
    | some u => ((ensure_user db tg).2, .candidate p.user_id p.age p.gender p.bio p.photo_file_id u.username u.name)

/-- Outcome of `/delete_account`. -/
inductive DeleteRes
  | noAccount (msg : String)
  | deleted (msg : String)
  deriving DecidableEq, Repr

/-- Embedding of `delete_account`: resolve the caller's row by Telegram id;
if present, delete every referencing row in all five tables. -/
def delete_account (db : DB) (tg : TgUser) : DB × DeleteRes :=
  match db.users.find? (fun u => u.tg_id == tg.id) with
  | none => (db, .noAccount "No account found.")
  | some u =>
    let uid := u.id
    (⟨db.users.filter (fun w => !(w.id == uid)),
      db.profiles.filter (fun p => !(p.user_id == uid)),
      db.likes.filter (fun l => !(l.from_user == uid || l.to_user == uid)),
      db.matches.filter (fun m => !(m.a == uid || m.b == uid)),
      db.reports.filter (fun w => !(w.reporter_id == uid || w.reported_id == uid))⟩,
     .deleted "Your account and data have been deleted.")

/-- Outcome of routing a message to the relay.  `sendAttempt to_tg payload`
records the outbound send attempted to the other party. -/
inductive RelayRes
  | onlyText (msg : String)
  | noMatch (msg : String)
  | noContact (msg : String)
  | sendAttempt (to_tg : Int) (payload : String)
  deriving DecidableEq, Repr

/-- Embedding of `relay_messages`; the argument is `some text` for a text
message and `none` for any non-text message. -/
def relay_messages (db : DB) (tg : TgUser) (text? : Option String) : DB × RelayRes :=
  match text? with
  | none => (db, .onlyText "Only text messages are relayed in this prototype.")
  | some text =>
    match (ensure_user db tg).2.matches.find?
        (fun m => (m.a == (ensure_user db tg).1 || m.b == (ensure_user db tg).1) && m.active == 1) with
    | none => ((ensure_user db tg).2, .noMatch "You don\x27t have an active match. Use /find to match with someone.")
    | some m =>
      match (ensure_user db tg).2.users.find?
          (fun u => u.id == (if m.a == (ensure_user db tg).1 then m.b else m.a)) with
      | none => ((ensure_user db tg).2, .noContact "Could not find your match\x27s contact.")
      | some u =>
        ((ensure_user db tg).2, .sendAttempt u.tg_id ("Anonymous#" ++ toString (ensure_user db tg).1 ++ ":\n" ++ text))

/-- Outcome of `/report`. -/
inductive ReportRes
  | usage (msg : String)
  | badId (msg : String)
  | notFound (msg : String)
  | received (msg : String)
  deriving DecidableEq, Repr

/-- Python `" ".join(parts)`. -/
def joinSpace : List String → String
  | [] => ""
  | [s] => s
  | s :: rest => s ++ " " ++ joinSpace rest

/-- Embedding of `report_handler`: argument check, numeric parse of the
target Telegram id, resolve the reporter, look the target up, insert. -/
def report_handler (db : DB) (tg : TgUser) (args : List String) : DB × ReportRes :=
  match args with
  | a0 :: a1 :: rest =>
    match pyInt? a0 with
    | none => (db, .badId "Provide a numeric Telegram ID.")
    | some target_tg =>
      match (ensure_user db tg).2.users.find? (fun u => u.tg_id == target_tg) with
      | none => ((ensure_user db tg).2, .notFound "User not found.")
      | some u =>
        ({ (ensure_user db tg).2 with
            reports := (ensure_user db tg).2.reports ++ [⟨(ensure_user db tg).1, u.id, joinSpace (a1 :: rest)⟩] },
         .received "Report received. Admin will review it.")
  | _ => (db, .usage "Usage: /report <tg_id> <reason>")

/-- The profile-builder conversation states (`A_NAME .. A_PHOTO`). -/
inductive ConvState
  | aName
  | aAge
  | aGender
  | aBio
  | aPhoto
  deriving DecidableEq, Repr

/-- Transient per-conversation data (`ctx.user_data`). -/
structure UserData where
  name : Option String := none
  age : Option Nat := none
  gender : Option String := none
  bio : Option String := none
  photo : Option String := none
  deriving DecidableEq, Repr

/-- An inbound event during the profile dialogue: a text message, a photo
attachment, the `/skip` command, or the `/create_profile` command. -/
inductive DlgInput
  | text (s : String)
  | photoMsg (file_id : String)
  | skipCmd
  | startCmd
  deriving DecidableEq, Repr

/-- Result of one dialogue step: updated store, next conversation state
(`none` = `ConversationHandler.END`), updated transient data, and the reply
sent, if any. -/
structure StepRes where
  db : DB
  state : Option ConvState
  ud : UserData
  reply : Option String
  deriving DecidableEq, Repr

/-- Embedding of `profile_name` (state `A_NAME`). -/
def profile_name (db : DB) (ud : UserData) (s : String) : StepRes :=
  if (pyStrip s).length < 2 then
    ⟨db, some .aName, ud, some "Please enter a valid name (at least 2 characters)."⟩
  else ⟨db, some .aAge, { ud with name := some (pyStrip s) }, some "How old are you?"⟩

/-- Embedding of `profile_age` (state `A_AGE`): digit check on the stripped
text, hard floor at 18 ending the dialogue, otherwise advance. -/
def profile_age (db : DB) (ud : UserData) (s : String) : StepRes :=
  if !(pyIsDigit (pyStrip s)) then ⟨db, some .aAge, ud, some "Please send a number for age."⟩
  else if (digitsToNat? (pyStrip s).data).getD 0 < 18 then
    ⟨db, none, ud, some "You must be 18+ to use this bot."⟩
  else ⟨db, some .aGender, { ud with age := some ((digitsToNat? (pyStrip s).data).getD 0) },
    some "What\x27s your gender? (Male/Female/Other)"⟩

/-- Embedding of `profile_gender` (state `A_GENDER`): free text, verbatim. -/
def profile_gender (db : DB) (ud : UserData) (s : String) : StepRes :=
  ⟨db, some .aBio, { ud with gender := some (pyStrip s) }, some "Write a short bio about yourself (1-2 lines):"⟩

/-- Embedding of `profile_bio` (state `A_BIO`): free text, verbatim. -/
def profile_bio (db : DB) (ud : UserData) (s : String) : StepRes :=
  ⟨db, some .aPhoto, { ud with bio := some (pyStrip s) }, some "Send a profile photo or /skip to continue without one."⟩

/-- The terminal save shared by `profile_photo` and `skip_photo`: resolve the
user, refresh the stored display name from the collected one, and
`INSERT OR REPLACE` the profile row (SQLite drops any row conflicting on the
unique `user_id` and appends the new row). -/
def saveProfile (db : DB) (tg : TgUser) (ud : UserData) (photoVal : Option String) : DB :=
  { (ensure_user db tg).2 with
      users := (ensure_user db tg).2.users.map
        (fun (u : UserRow) => if u.id == (ensure_user db tg).1 then { u with name := ud.name } else u),
      profiles := (ensure_user db tg).2.profiles.filter
          (fun (p : ProfileRow) => !(p.user_id == (ensure_user db tg).1))
        ++ [⟨(ensure_user db tg).1, ud.age, ud.gender, ud.bio, photoVal⟩] }

/-- Embedding of `profile_photo` (photo attachment in state `A_PHOTO`). -/
def profile_photo (db : DB) (tg : TgUser) (ud : UserData) (fid : String) : StepRes :=
  ⟨saveProfile db tg { ud with photo := some fid } (some fid), none, {},
    some "Profile saved! Use /find to browse others."⟩

/-- Embedding of `skip_photo` (`/skip` in state `A_PHOTO`). -/
def skip_photo (db : DB) (tg : TgUser) (ud : UserData) : StepRes :=
  ⟨saveProfile db tg ud none, none, {}, some "Profile saved without photo! Use /find."⟩

/-- One step of the `ConversationHandler`: states `A_NAME .. A_BIO` accept
non-command text only, `A_PHOTO` accepts a photo or `/skip`; any other input
in a given state is not handled by the conversation and changes nothing. -/
def convStep (db : DB) (tg : TgUser) (cs : ConvState) (ud : UserData) : DlgInput → StepRes
  | .text s =>
    if isCommandText s then ⟨db, some cs, ud, none⟩
    else
      match cs with
      | .aName => profile_name db ud s
      | .aAge => profile_age db ud s
      | .aGender => profile_gender db ud s
      | .aBio => profile_bio db ud s
      | .aPhoto => ⟨db, some cs, ud, none⟩
  | .photoMsg fid =>
    match cs with
    | .aPhoto => profile_photo db tg ud fid
    | _ => ⟨db, some cs, ud, none⟩
  | .skipCmd =>
    match cs with
    | .aPhoto => skip_photo db tg ud
    | _ => ⟨db, some cs, ud, none⟩
  | .startCmd => ⟨db, some cs, ud, none⟩

/-- Run a list of dialogue inputs.  With no active conversation, only
`/create_profile` is handled (it enters `A_NAME`); everything else leaves the
dialogue alone. -/
def runDialogue (db : DB) (tg : TgUser) (cs? : Option ConvState) (ud : UserData) :
    List DlgInput → DB × Option ConvState × UserData
  | [] => (db, cs?, ud)
  | i :: rest =>
    match cs? with
    | none =>
      match i with
      | .startCmd => runDialogue db tg (some .aName) ud rest
      | _ => runDialogue db tg none ud rest
    | some cs =>
      let r := convStep db tg cs ud i
      runDialogue r.db tg r.state r.ud rest

/-! ## Basic lemmas about the identity resolver and the like primitives -/

theorem ensure_user_found (db : DB) (tg : TgUser) (u : UserRow)
    (h : db.users.find? (fun w => w.tg_id == tg.id) = some u) :
    ensure_user db tg = (u.id, db) := by
  unfold ensure_user
  rw [h]

theorem ensure_user_new (db : DB) (tg : TgUser)
    (h : db.users.find? (fun w => w.tg_id == tg.id) = none) :
    ensure_user db tg = (allocId db.users,
      { db with users := db.users ++ [⟨allocId db.users, tg.id, tg.username, some (deriveName tg), 0⟩] }) := by
  unfold ensure_user
  rw [h]

theorem ensure_user_likes (db : DB) (tg : TgUser) :
    (ensure_user db tg).2.likes = db.likes := by
  unfold ensure_user
  split <;> rfl

theorem ensure_user_profiles (db : DB) (tg : TgUser) :
    (ensure_user db tg).2.profiles = db.profiles := by
  unfold ensure_user
  split <;> rfl

theorem ensure_user_matches (db : DB) (tg : TgUser) :
    (ensure_user db tg).2.matches = db.matches := by
  unfold ensure_user
  split <;> rfl

theorem ensure_user_reports (db : DB) (tg : TgUser) :
    (ensure_user db tg).2.reports = db.reports := by
  unfold ensure_user
  split <;> rfl

theorem likeExists_of_likes_eq (db db2 : DB) (x y : Int) (h : db2.likes = db.likes) :
    likeExists db2 x y = likeExists db x y := by
  unfold likeExists
  rw [h]

theorem countLike_of_likes_eq (db db2 : DB) (x y : Int) (h : db2.likes = db.likes) :
    countLike db2 x y = countLike db x y := by
  unfold countLike
  rw [h]

theorem likeExists_false_iff (db : DB) (f t : Int) :
    likeExists db f t = false ↔ countLike db f t = 0 := by
  unfold likeExists countLike
  rw [List.any_eq_false, List.countP_eq_zero]

theorem matchExists_false_iff (db : DB) (f t : Int) :
    matchExists db f t = false ↔ countMatch db f t = 0 := by
  unfold matchExists countMatch
  rw [List.any_eq_false, List.countP_eq_zero]

theorem insertLike_likes (db : DB) (f t : Int) :
    (insertLike db f t).likes =
      (if likeExists db f t then db.likes else db.likes ++ [⟨f, t⟩]) := by
  unfold insertLike
  split <;> rfl

theorem insertLike_matches (db : DB) (f t : Int) :
    (insertLike db f t).matches = db.matches := by
  unfold insertLike
  split <;> rfl

theorem likeExists_insertLike_self (db : DB) (f t : Int) :
    likeExists (insertLike db f t) f t = true := by
  unfold insertLike
  by_cases h : likeExists db f t
  · simp only [if_pos h]
    exact h
  · rw [if_neg h]
    unfold likeExists at h ⊢
    simp [List.any_append]

theorem matchIfAbsent_likes (db : DB) (f t : Int) :
    (matchIfAbsent db f t).likes = db.likes := by
  unfold matchIfAbsent
  split <;> rfl

theorem matchExists_matchIfAbsent_self (db : DB) (f t : Int) :
    matchExists (matchIfAbsent db f t) f t = true := by
  unfold matchIfAbsent
  by_cases h : matchExists db f t
  · rw [if_pos h]
    exact h
  · rw [if_neg h]
    unfold matchExists at h ⊢
    simp [List.any_append]

theorem matchIfAbsent_of_exists (db : DB) (f t : Int) (h : matchExists db f t = true) :
    matchIfAbsent db f t = db := by
  unfold matchIfAbsent
  rw [if_pos h]

theorem recordLike_likes (db : DB) (f t : Int) :
    (recordLike db f t).likes = (insertLike db f t).likes := by
  unfold recordLike
  split
  · exact matchIfAbsent_likes (insertLike db f t) f t
  · rfl

theorem recordLike_eq (db : DB) (f t : Int) :
    recordLike db f t =
      (if likeExists (insertLike db f t) t f then matchIfAbsent (insertLike db f t) f t
       else insertLike db f t) := rfl

/-! ## C3: RecordLike is idempotent -/

/-- C3: the like action is idempotent: a first call starting from a state
with no `Like(from,to)` row leaves exactly one such row, and repeating the
whole action with the same pair is a no-op on the store (the duplicate is
suppressed by the check-then-insert, not reported as an error). -/
theorem recordLike_idempotent (db : DB) (f t : Int) :
    recordLike (recordLike db f t) f t = recordLike db f t ∧
    (countLike db f t = 0 → countLike (recordLike db f t) f t = 1) := by
  constructor
  · have hA : likeExists (recordLike db f t) f t = true := by
      rw [likeExists_of_likes_eq (insertLike db f t) (recordLike db f t) f t (recordLike_likes db f t)]
      exact likeExists_insertLike_self db f t
    have hIns : insertLike (recordLike db f t) f t = recordLike db f t := by
      unfold insertLike
      rw [if_pos hA]
    rw [recordLike_eq (recordLike db f t) f t, hIns]
    by_cases hm : likeExists (insertLike db f t) t f
    · have hm2 : likeExists (recordLike db f t) t f = true := by
        rw [likeExists_of_likes_eq (insertLike db f t) (recordLike db f t) t f (recordLike_likes db f t)]
        exact hm
      rw [if_pos hm2]
      apply matchIfAbsent_of_exists
      have hrm : recordLike db f t = matchIfAbsent (insertLike db f t) f t := by
        rw [recordLike_eq, if_pos hm]
      rw [hrm]
      exact matchExists_matchIfAbsent_self (insertLike db f t) f t
    · have hrec : recordLike db f t = insertLike db f t := by
        rw [recordLike_eq, if_neg hm]
      have hm2 : likeExists (recordLike db f t) t f = false := by
        rw [hrec]
        exact Bool.eq_false_iff.mpr hm
      simp [hm2]
  · intro h0
    have hfalse : likeExists db f t = false := (likeExists_false_iff db f t).mpr h0
    have h1 : (recordLike db f t).likes = db.likes ++ [⟨f, t⟩] := by
      rw [recordLike_likes, insertLike_likes, hfalse]
      simp
    unfold countLike at h0 ⊢
    rw [h1, List.countP_append .., h0]
    simp [List.countP_cons]

/-- Closed instance of `recordLike_idempotent` on a fresh store. -/
theorem recordLike_idempotent_witness :
    recordLike (recordLike emptyDB 1 2) 1 2 = recordLike emptyDB 1 2 ∧
    countLike (recordLike emptyDB 1 2) 1 2 = 1 :=
  ⟨(recordLike_idempotent emptyDB 1 2).1, (recordLike_idempotent emptyDB 1 2).2 (by decide)⟩

theorem ensure_user_stable (db : DB) (tg : TgUser) :
    ensure_user (ensure_user db tg).2 tg = ensure_user db tg := by
  cases h : db.users.find? (fun w => w.tg_id == tg.id) with
  | some u =>
    have h1 := ensure_user_found db tg u h
    rw [h1]
    exact h1
  | none =>
    have h1 := ensure_user_new db tg h
    rw [h1]
    have h2 : (db.users ++ [(⟨allocId db.users, tg.id, tg.username, some (deriveName tg), 0⟩ : UserRow)]).find?
        (fun w => w.tg_id == tg.id) = some ⟨allocId db.users, tg.id, tg.username, some (deriveName tg), 0⟩ := by
      rw [List.find?_append, h]
      simp [List.find?]
    exact ensure_user_found
      { db with users := db.users ++ [⟨allocId db.users, tg.id, tg.username, some (deriveName tg), 0⟩] }
      tg ⟨allocId db.users, tg.id, tg.username, some (deriveName tg), 0⟩ h2

/-! ## C7: the identity resolver is idempotent -/

/-- C7: resolving the same external identity twice returns the same internal
id and leaves the store unchanged the second time; on first contact exactly
one `users` row is created, whose stored name is the first+last-name
derivation with its username and empty-string fallbacks. -/
theorem resolver_idempotent (db : DB) (tg : TgUser) :
    (ensure_user (ensure_user db tg).2 tg).1 = (ensure_user db tg).1 ∧
    (ensure_user (ensure_user db tg).2 tg).2 = (ensure_user db tg).2 ∧
    (countUsersTg db tg.id = 0 →
      countUsersTg (ensure_user db tg).2 tg.id = 1 ∧
      (ensure_user db tg).2.users =
        db.users ++ [⟨allocId db.users, tg.id, tg.username, some (deriveName tg), 0⟩]) ∧
    (tg.first_name = none → tg.last_name = none → deriveName tg = tg.username.getD "") := by
  refine ⟨by rw [ensure_user_stable], by rw [ensure_user_stable], ?_, ?_⟩
  · intro h0
    cases h : db.users.find? (fun w => w.tg_id == tg.id) with
    | some u =>
      exfalso
      have hmem : u ∈ db.users := List.mem_of_find?_eq_some h
      have hp := List.find?_some h
      have hz := (List.countP_eq_zero.mp h0) u hmem
      exact hz hp
    | none =>
      rw [ensure_user_new db tg h]
      constructor
      · show (db.users ++ [(⟨allocId db.users, tg.id, tg.username, some (deriveName tg), 0⟩ : UserRow)]).countP
            (fun u => u.tg_id == tg.id) = 1
        rw [List.countP_append ..]
        have h0w : db.users.countP (fun u => u.tg_id == tg.id) = 0 := h0
        rw [h0w]
        simp [List.countP_cons]
      · rfl
  · intro h1 h2
    unfold deriveName
    rw [h1, h2]
    rfl

/-- Closed instance of `resolver_idempotent` at a first-contact identity. -/
theorem resolver_idempotent_witness :
    countUsersTg (ensure_user emptyDB ⟨7, some "ann", none, none⟩).2 7 = 1 ∧
    deriveName ⟨7, some "ann", none, none⟩ = "ann" := by
  have h := resolver_idempotent emptyDB ⟨7, some "ann", none, none⟩
  exact ⟨(h.2.2.1 (by decide)).1, h.2.2.2 (by decide) (by decide)⟩

/-! ## C5: account deletion removes every referencing row -/

/-- C5: for a caller with a `users` row, `delete_account` removes every
profile for that id, every like in either direction, every match on either
side, every report where the user is reporter or reported, and the user row
itself, while keeping all rows that do not reference the id; for a caller
with no `users` row it answers "no account found" and changes nothing. -/
theorem delete_account_complete (db : DB) (tg : TgUser) :
    (∀ u, db.users.find? (fun w => w.tg_id == tg.id) = some u →
      (delete_account db tg).2 = .deleted "Your account and data have been deleted." ∧
      (∀ p ∈ (delete_account db tg).1.profiles, p.user_id ≠ u.id) ∧
      (∀ l ∈ (delete_account db tg).1.likes, l.from_user ≠ u.id ∧ l.to_user ≠ u.id) ∧
      (∀ m ∈ (delete_account db tg).1.matches, m.a ≠ u.id ∧ m.b ≠ u.id) ∧
      (∀ w ∈ (delete_account db tg).1.reports, w.reporter_id ≠ u.id ∧ w.reported_id ≠ u.id) ∧
      (∀ w ∈ (delete_account db tg).1.users, w.id ≠ u.id) ∧
      (∀ p ∈ db.profiles, p.user_id ≠ u.id → p ∈ (delete_account db tg).1.profiles) ∧
      (∀ l ∈ db.likes, l.from_user ≠ u.id → l.to_user ≠ u.id → l ∈ (delete_account db tg).1.likes) ∧
      (∀ m ∈ db.matches, m.a ≠ u.id → m.b ≠ u.id → m ∈ (delete_account db tg).1.matches) ∧
      (∀ w ∈ db.reports, w.reporter_id ≠ u.id → w.reported_id ≠ u.id → w ∈ (delete_account db tg).1.reports) ∧
      (∀ w ∈ db.users, w.id ≠ u.id → w ∈ (delete_account db tg).1.users)) ∧
    (db.users.find? (fun w => w.tg_id == tg.id) = none →
      delete_account db tg = (db, .noAccount "No account found.")) := by
  constructor
  · intro u h
    have heq : delete_account db tg =
        (⟨db.users.filter (fun w => !(w.id == u.id)),
          db.profiles.filter (fun p => !(p.user_id == u.id)),
          db.likes.filter (fun l => !(l.from_user == u.id || l.to_user == u.id)),
          db.matches.filter (fun m => !(m.a == u.id || m.b == u.id)),
          db.reports.filter (fun w => !(w.reporter_id == u.id || w.reported_id == u.id))⟩,
         .deleted "Your account and data have been deleted.") := by
      unfold delete_account
      rw [h]
    rw [heq]
    refine ⟨rfl, ?_, ?_, ?_, ?_, ?_, ?_, ?_, ?_, ?_, ?_⟩
    · intro p hp
      simpa using List.of_mem_filter hp
    · intro l hl
      simpa using List.of_mem_filter hl
    · intro m hm
      simpa using List.of_mem_filter hm
    · intro w hw
      simpa using List.of_mem_filter hw
    · intro w hw
      simpa using List.of_mem_filter hw
    · intro p hp hne
      exact List.mem_filter.mpr ⟨hp, by simpa using hne⟩
    · intro l hl hne1 hne2
      exact List.mem_filter.mpr ⟨hl, by simp [hne1, hne2]⟩
    · intro m hm hne1 hne2
      exact List.mem_filter.mpr ⟨hm, by simp [hne1, hne2]⟩
    · intro w hw hne1 hne2
      exact List.mem_filter.mpr ⟨hw, by simp [hne1, hne2]⟩
    · intro w hw hne
      exact List.mem_filter.mpr ⟨hw, by simpa using hne⟩
  · intro h
    unfold delete_account
    rw [h]

/-- Closed instance of `delete_account_complete`: a populated store is fully
scrubbed of user 1, other rows kept; a second deletion finds no account. -/
theorem delete_account_complete_witness :
    (∀ l ∈ (delete_account
        ⟨[⟨1, 7, none, some "a", 0⟩, ⟨2, 8, none, some "b", 0⟩], [⟨1, some 20, none, none, none⟩],
         [⟨1, 2⟩, ⟨2, 1⟩], [⟨1, 2, 1⟩], [⟨2, 1, "spam"⟩]⟩
        ⟨7, none, none, none⟩).1.likes, l.from_user ≠ 1 ∧ l.to_user ≠ 1) ∧
    delete_account emptyDB ⟨7, none, none, none⟩ = (emptyDB, .noAccount "No account found.") := by
  constructor
  · intro l hl
    have h := (delete_account_complete
        ⟨[⟨1, 7, none, some "a", 0⟩, ⟨2, 8, none, some "b", 0⟩], [⟨1, some 20, none, none, none⟩],
         [⟨1, 2⟩, ⟨2, 1⟩], [⟨1, 2, 1⟩], [⟨2, 1, "spam"⟩]⟩
        ⟨7, none, none, none⟩).1 ⟨1, 7, none, some "a", 0⟩ (by decide)
    exact h.2.2.1 l hl
  · exact (delete_account_complete emptyDB ⟨7, none, none, none⟩).2 (by decide)

/-! ## C10: /report resolves the reporter before the target lookup -/

/-- C10: a reporter with no `users` row who reports a target Telegram id that
resolves to no user still gets a `users` row created (by `ensure_user`,
which runs before the target lookup), while the command answers
"User not found" and inserts no report row. -/
theorem report_not_atomic (db : DB) (tg : TgUser) (a0 a1 : String) (rest : List String) (n : Int)
    (hparse : pyInt? a0 = some n)
    (hrep : countUsersTg db tg.id = 0)
    (htgt : countUsersTg db n = 0)
    (hne : n ≠ tg.id) :
    (report_handler db tg (a0 :: a1 :: rest)).2 = .notFound "User not found." ∧
    (report_handler db tg (a0 :: a1 :: rest)).1.reports = db.reports ∧
    countUsersTg (report_handler db tg (a0 :: a1 :: rest)).1 tg.id = 1 := by
  have hfind : db.users.find? (fun w => w.tg_id == tg.id) = none :=
    List.find?_eq_none.mpr fun a ha => (List.countP_eq_zero.mp hrep) a ha
  have h1 := ensure_user_new db tg hfind
  have hrow : (ensure_user db tg).2.users =
      db.users ++ [⟨allocId db.users, tg.id, tg.username, some (deriveName tg), 0⟩] := by
    rw [h1]
  have hfindt : db.users.find? (fun u => u.tg_id == n) = none :=
    List.find?_eq_none.mpr fun a ha => (List.countP_eq_zero.mp htgt) a ha
  have hb : (tg.id == n) = false := beq_eq_false_iff_ne.mpr (Ne.symm hne)
  have hfind2 : (ensure_user db tg).2.users.find? (fun u => u.tg_id == n) = none := by
    rw [hrow, List.find?_append, hfindt]
    simp [List.find?, hb]
  have heq : report_handler db tg (a0 :: a1 :: rest) =
      ((ensure_user db tg).2, .notFound "User not found.") := by
    simp only [report_handler, hparse, hfind2]
  refine ⟨by rw [heq], ?_, ?_⟩
  · rw [heq]
    exact ensure_user_reports db tg
  · rw [heq]
    show countUsersTg (ensure_user db tg).2 tg.id = 1
    unfold countUsersTg
    rw [hrow, List.countP_append ..]
    have h0w : db.users.countP (fun u => u.tg_id == tg.id) = 0 := hrep
    rw [h0w]
    simp [List.countP_cons]

/-- Closed instance of `report_not_atomic`. -/
theorem report_not_atomic_witness :
    (report_handler emptyDB ⟨7, none, none, none⟩ ["9", "spam"]).2 = .notFound "User not found." ∧
    countUsersTg (report_handler emptyDB ⟨7, none, none, none⟩ ["9", "spam"]).1 7 = 1 := by
  have h := report_not_atomic emptyDB ⟨7, none, none, none⟩ "9" "spam" [] 9
    (by decide) (by decide) (by decide) (by decide)
  exact ⟨h.1, h.2.2⟩

theorem matchExists_of_matches_eq (db db2 : DB) (x y : Int) (h : db2.matches = db.matches) :
    matchExists db2 x y = matchExists db x y := by
  unfold matchExists
  rw [h]

theorem countMatch_of_matches_eq (db db2 : DB) (x y : Int) (h : db2.matches = db.matches) :
    countMatch db2 x y = countMatch db x y := by
  unfold countMatch
  rw [h]

theorem matchIfAbsent_matches_of_absent (db : DB) (f t : Int) (h : matchExists db f t = false) :
    (matchIfAbsent db f t).matches = db.matches ++ [⟨f, t, 1⟩] := by
  unfold matchIfAbsent
  rw [if_neg (by rw [h]; exact Bool.false_ne_true)]

/-! ## C9: a crafted self-like produces a self-match -/

/-- C9: the like handler never validates the target against the presser: a
press whose payload parses to `like:<own id>`, by a user with no prior
self-like row, inserts a `Like(u,u)` row, the reciprocal check then sees that
same row as mutual, and a match row with both sides equal to `u` results
(created when none existed), with the match response. -/
theorem self_like_creates_self_match (db : DB) (tg : TgUser) (data : String) (u : Int)
    (hp : parseCallback data = some ("like", u))
    (hu : (ensure_user db tg).1 = u)
    (hl : countLike db u u = 0) :
    countLike (callbackStep db tg data).1 u u = 1 ∧
    (∃ m ∈ (callbackStep db tg data).1.matches, m.a = u ∧ m.b = u) ∧
    (countMatch db u u = 0 → countMatch (callbackStep db tg data).1 u u = 1) ∧
    (∃ notify, (callbackStep db tg data).2 =
      .matchMade "🎉 It\x27s a MATCH! You can now chat anonymously via the bot." notify) := by
  have hstep : callbackStep db tg data = likeAction (ensure_user db tg).2 (ensure_user db tg).1 u := by
    simp only [callbackStep]
    rw [hp]
    rfl
  have hmut : likeExists (insertLike (ensure_user db tg).2 u u) u u = true :=
    likeExists_insertLike_self (ensure_user db tg).2 u u
  have hact : likeAction (ensure_user db tg).2 u u =
      (matchIfAbsent (insertLike (ensure_user db tg).2 u u) u u,
       .matchMade "🎉 It\x27s a MATCH! You can now chat anonymously via the bot."
         (lookupTgId (matchIfAbsent (insertLike (ensure_user db tg).2 u u) u u) u)) := by
    unfold likeAction
    rw [if_pos hmut]
  rw [hstep, hu, hact]
  refine ⟨?_, ?_, ?_, ?_⟩
  · have hl1 : countLike (ensure_user db tg).2 u u = 0 := by
      rw [countLike_of_likes_eq db _ u u (ensure_user_likes db tg)]
      exact hl
    have hfalse : likeExists (ensure_user db tg).2 u u = false :=
      (likeExists_false_iff _ u u).mpr hl1
    have hlikes : (insertLike (ensure_user db tg).2 u u).likes =
        (ensure_user db tg).2.likes ++ [⟨u, u⟩] := by
      rw [insertLike_likes, hfalse]
      simp
    show countLike (matchIfAbsent (insertLike (ensure_user db tg).2 u u) u u) u u = 1
    rw [countLike_of_likes_eq (insertLike (ensure_user db tg).2 u u) _ u u
      (matchIfAbsent_likes (insertLike (ensure_user db tg).2 u u) u u)]
    unfold countLike
    rw [hlikes, List.countP_append ..]
    unfold countLike at hl1
    rw [hl1]
    simp [List.countP_cons]
  · have hex := matchExists_matchIfAbsent_self (insertLike (ensure_user db tg).2 u u) u u
    unfold matchExists at hex
    obtain ⟨m, hm, hpred⟩ := List.any_eq_true.mp hex
    refine ⟨m, hm, ?_⟩
    simpa using hpred
  · intro h0
    have h1 : countMatch (ensure_user db tg).2 u u = 0 := by
      rw [countMatch_of_matches_eq db _ u u (ensure_user_matches db tg)]
      exact h0
    have h2 : countMatch (insertLike (ensure_user db tg).2 u u) u u = 0 := by
      rw [countMatch_of_matches_eq (ensure_user db tg).2 _ u u
        (insertLike_matches (ensure_user db tg).2 u u)]
      exact h1
    have h3 : matchExists (insertLike (ensure_user db tg).2 u u) u u = false :=
      (matchExists_false_iff _ u u).mpr h2
    show countMatch (matchIfAbsent (insertLike (ensure_user db tg).2 u u) u u) u u = 1
    unfold countMatch
    rw [matchIfAbsent_matches_of_absent _ u u h3, List.countP_append ..]
    unfold countMatch at h2
    rw [h2]
    simp [List.countP_cons]
  · exact ⟨lookupTgId (matchIfAbsent (insertLike (ensure_user db tg).2 u u) u u) u, rfl⟩

/-- Closed instance of `self_like_creates_self_match`: user 1 presses a
crafted `like:1` button. -/
theorem self_like_witness :
    countLike (callbackStep ⟨[⟨1, 7, none, some "a", 0⟩], [], [], [], []⟩ ⟨7, none, none, none⟩ "like:1").1 1 1 = 1 ∧
    countMatch (callbackStep ⟨[⟨1, 7, none, some "a", 0⟩], [], [], [], []⟩ ⟨7, none, none, none⟩ "like:1").1 1 1 = 1 := by
  have h := self_like_creates_self_match ⟨[⟨1, 7, none, some "a", 0⟩], [], [], [], []⟩
    ⟨7, none, none, none⟩ "like:1" 1 (by decide) (by decide) (by decide)
  exact ⟨h.1, h.2.2.1 (by decide)⟩

/-! ## Congruence machinery: stores related up to selected user columns -/

/-- User rows equal on every column `/find` reads (`is_banned` may differ). -/
def RowEqNB (u w : UserRow) : Prop :=
  u.id = w.id ∧ u.tg_id = w.tg_id ∧ u.username = w.username ∧ u.name = w.name

/-- User rows equal on `id` and `tg_id` (display columns may differ). -/
def RowEqKey (u w : UserRow) : Prop :=
  u.id = w.id ∧ u.tg_id = w.tg_id

theorem find?_rel {R : UserRow → UserRow → Prop} {p q : UserRow → Bool}
    (hpq : ∀ u w, R u w → p u = q w) :
    ∀ {us us2 : List UserRow}, List.Forall₂ R us us2 →
      (us.find? p = none ∧ us2.find? q = none) ∨
      (∃ u w, R u w ∧ us.find? p = some u ∧ us2.find? q = some w) := by
  intro us us2 h
  induction h with
  | nil => exact Or.inl ⟨rfl, rfl⟩
  | cons hR hrest ih =>
    rename_i u w l1 l2
    by_cases hp : p u = true
    · exact Or.inr ⟨u, w, hR, List.find?_cons_of_pos _ hp,
        List.find?_cons_of_pos _ (by rw [← hpq u w hR]; exact hp)⟩
    · have hq : ¬ q w = true := by rw [← hpq u w hR]; exact hp
      rw [List.find?_cons_of_neg _ hp, List.find?_cons_of_neg _ hq]
      exact ih

theorem foldl_max_rel {R : UserRow → UserRow → Prop}
    (hid : ∀ u w, R u w → u.id = w.id) :
    ∀ {us us2 : List UserRow}, List.Forall₂ R us us2 → ∀ acc : Int,
      us.foldl (fun m u => max m u.id) acc = us2.foldl (fun m u => max m u.id) acc := by
  intro us us2 h
  induction h with
  | nil => intro acc; rfl
  | cons hR hrest ih =>
    intro acc
    rename_i u w l1 l2
    simp only [List.foldl_cons]
    rw [hid u w hR]
    exact ih _

theorem allocId_rel {R : UserRow → UserRow → Prop}
    (hid : ∀ u w, R u w → u.id = w.id)
    {us us2 : List UserRow} (h : List.Forall₂ R us us2) :
    allocId us = allocId us2 := by
  unfold allocId
  rw [foldl_max_rel hid h 0]

theorem any_id_rel {R : UserRow → UserRow → Prop}
    (hid : ∀ u w, R u w → u.id = w.id) (x : Int) :
    ∀ {us us2 : List UserRow}, List.Forall₂ R us us2 →
      us.any (fun u => u.id == x) = us2.any (fun u => u.id == x) := by
  intro us us2 h
  induction h with
  | nil => rfl
  | cons hR hrest ih =>
    rename_i u w l1 l2
    simp only [List.any_cons]
    rw [hid u w hR, ih]

/-- Resolving related stores with identities sharing the external id yields
the same internal id and related stores, provided the would-be fresh rows are
related. -/
theorem ensure_user_rel {R : UserRow → UserRow → Prop}
    (hkey : ∀ u w, R u w → u.id = w.id ∧ u.tg_id = w.tg_id)
    {db db2 : DB} {tg tg2 : TgUser} (hid : tg.id = tg2.id)
    (husers : List.Forall₂ R db.users db2.users)
    (hrow : R ⟨allocId db.users, tg.id, tg.username, some (deriveName tg), 0⟩
             ⟨allocId db2.users, tg2.id, tg2.username, some (deriveName tg2), 0⟩) :
    (ensure_user db tg).1 = (ensure_user db2 tg2).1 ∧
    List.Forall₂ R (ensure_user db tg).2.users (ensure_user db2 tg2).2.users := by
  have hpq : ∀ u w, R u w → (u.tg_id == tg.id) = (w.tg_id == tg2.id) := by
    intro u w hR
    rw [(hkey u w hR).2, hid]
  cases find?_rel hpq husers with
  | inl hn =>
    rw [ensure_user_new db tg hn.1, ensure_user_new db2 tg2 hn.2]
    exact ⟨allocId_rel (fun u w hR => (hkey u w hR).1) husers,
      List.rel_append husers (List.Forall₂.cons hrow List.Forall₂.nil)⟩
  | inr hs =>
    obtain ⟨u, w, hR, hu, hw⟩ := hs
    rw [ensure_user_found db tg u hu, ensure_user_found db2 tg2 w hw]
    exact ⟨(hkey u w hR).1, husers⟩

theorem ensure_user_matches_update (db : DB) (tg : TgUser) (M : List MatchRow) :
    ensure_user { db with «matches» := M } tg =
      ((ensure_user db tg).1, { (ensure_user db tg).2 with «matches» := M }) := by
  unfold ensure_user
  dsimp only
  cases h : db.users.find? (fun u => u.tg_id == tg.id) <;> rfl

theorem ensure_user_likes_update (db : DB) (tg : TgUser) (L : List LikeRow) :
    ensure_user { db with likes := L } tg =
      ((ensure_user db tg).1, { (ensure_user db tg).2 with likes := L }) := by
  unfold ensure_user
  dsimp only
  cases h : db.users.find? (fun u => u.tg_id == tg.id) <;> rfl

/-- The relation `RowEqNB` is reflexive. -/
theorem rowEqNB_refl (u : UserRow) : RowEqNB u u := ⟨rfl, rfl, rfl, rfl⟩

/-- The `/find` outcome is determined by the resolved id, the profiles, the
requester's outgoing-like test, and the user rows up to `is_banned`. -/
theorem find_handler_congr (db db2 : DB) (tg : TgUser)
    (hfst : (ensure_user db tg).1 = (ensure_user db2 tg).1)
    (hprof : (ensure_user db tg).2.profiles = (ensure_user db2 tg).2.profiles)
    (hliked : ∀ x : Int,
      (ensure_user db tg).2.likes.any (fun l => l.from_user == (ensure_user db tg).1 && l.to_user == x)
        = (ensure_user db2 tg).2.likes.any (fun l => l.from_user == (ensure_user db2 tg).1 && l.to_user == x))
    (husers : List.Forall₂ RowEqNB (ensure_user db tg).2.users (ensure_user db2 tg).2.users) :
    (find_handler db tg).2 = (find_handler db2 tg).2 := by
  have hpred : ∀ p : ProfileRow,
      findPred (ensure_user db tg).2 (ensure_user db tg).1 p
        = findPred (ensure_user db2 tg).2 (ensure_user db2 tg).1 p := by
    intro p
    unfold findPred
    rw [hliked p.user_id, hfst,
      any_id_rel (R := RowEqNB) (fun u w hR => hR.1) p.user_id husers]
  have hfind : (ensure_user db tg).2.profiles.find? (findPred (ensure_user db tg).2 (ensure_user db tg).1)
      = (ensure_user db2 tg).2.profiles.find? (findPred (ensure_user db2 tg).2 (ensure_user db2 tg).1) := by
    rw [← hprof, show (findPred (ensure_user db tg).2 (ensure_user db tg).1)
      = (findPred (ensure_user db2 tg).2 (ensure_user db2 tg).1) from funext hpred]
  unfold find_handler
  rw [← hfind]
  cases hq : (ensure_user db tg).2.profiles.find? (findPred (ensure_user db tg).2 (ensure_user db tg).1) with
  | none => rfl
  | some p =>
    dsimp only
    cases find?_rel (R := RowEqNB) (p := fun u => u.id == p.user_id) (q := fun u => u.id == p.user_id)
        (fun u w hR => by simp only [hR.1]) husers with
    | inl hn =>
      rw [hn.1, hn.2]
    | inr hs =>
      obtain ⟨u, w, hR, hu, hw⟩ := hs
      rw [hu, hw]
      dsimp only
      rw [hR.2.2.1, hR.2.2.2]

/-- A store with the ban flags rewritten arbitrarily, everything else kept. -/
def mapBanned (db : DB) (f : UserRow → Int) : DB :=
  { db with users := db.users.map (fun u => { u with is_banned := f u }) }

/-! ## C2: the find query excludes exactly self and already-liked -/

/-- C2: `/find` never returns the requester's own profile nor one the
requester already liked; when no profile passes those two conditions the
outcome is the "try later" message; and the outcome is unchanged by the
match table, by ban flags, and by any likes not sent by the requester
(in particular likes toward the requester). -/
theorem find_correct (db : DB) (tg : TgUser) :
    (∀ uid age g b ph un nm,
      (find_handler db tg).2 = .candidate uid age g b ph un nm →
      uid ≠ (ensure_user db tg).1 ∧ countLike db (ensure_user db tg).1 uid = 0) ∧
    ((∀ p ∈ db.profiles,
        ¬(p.user_id ≠ (ensure_user db tg).1 ∧ countLike db (ensure_user db tg).1 p.user_id = 0)) →
      (find_handler db tg).2 = .tryLater "No profiles available right now. Try again later.") ∧
    (∀ M, (find_handler { db with «matches» := M } tg).2 = (find_handler db tg).2) ∧
    (∀ f : UserRow → Int, (find_handler (mapBanned db f) tg).2 = (find_handler db tg).2) ∧
    (∀ extra : List LikeRow, (∀ l ∈ extra, l.from_user ≠ (ensure_user db tg).1) →
      (find_handler { db with likes := db.likes ++ extra } tg).2 = (find_handler db tg).2) := by
  refine ⟨?_, ?_, ?_, ?_, ?_⟩
  · intro uid age g b ph un nm hcand
    cases hq : (ensure_user db tg).2.profiles.find? (findPred (ensure_user db tg).2 (ensure_user db tg).1) with
    | none =>
      have heq : (find_handler db tg).2 = .tryLater "No profiles available right now. Try again later." := by
        unfold find_handler
        rw [hq]
      rw [heq] at hcand
      cases hcand
    | some p =>
      cases hu2 : (ensure_user db tg).2.users.find? (fun u => u.id == p.user_id) with
      | none =>
        have heq : (find_handler db tg).2 = .tryLater "No profiles available right now. Try again later." := by
          unfold find_handler
          rw [hq]
          dsimp only
          rw [hu2]
        rw [heq] at hcand
        cases hcand
      | some w =>
        have heq : (find_handler db tg).2 =
            .candidate p.user_id p.age p.gender p.bio p.photo_file_id w.username w.name := by
          unfold find_handler
          rw [hq]
          dsimp only
          rw [hu2]
        rw [heq] at hcand
        cases hcand
        have hpred := List.find?_some hq
        unfold findPred at hpred
        simp only [Bool.and_eq_true, Bool.not_eq_true', beq_eq_false_iff_ne] at hpred
        refine ⟨hpred.1.1, ?_⟩
        have hl1 : likeExists (ensure_user db tg).2 (ensure_user db tg).1 p.user_id = false :=
          hpred.1.2
        have hl2 : likeExists db (ensure_user db tg).1 p.user_id = false := by
          rw [← likeExists_of_likes_eq db (ensure_user db tg).2 (ensure_user db tg).1 p.user_id
            (ensure_user_likes db tg)]
          exact hl1
        exact (likeExists_false_iff db (ensure_user db tg).1 p.user_id).mp hl2
  · intro hnone
    have hq : (ensure_user db tg).2.profiles.find?
        (findPred (ensure_user db tg).2 (ensure_user db tg).1) = none := by
      apply List.find?_eq_none.mpr
      intro p hp hpt
      unfold findPred at hpt
      simp only [Bool.and_eq_true, Bool.not_eq_true', beq_eq_false_iff_ne] at hpt
      have hp0 : p ∈ db.profiles := by
        rw [← ensure_user_profiles db tg]
        exact hp
      apply hnone p hp0
      refine ⟨hpt.1.1, ?_⟩
      have hl1 : likeExists (ensure_user db tg).2 (ensure_user db tg).1 p.user_id = false :=
        hpt.1.2
      have hl2 : likeExists db (ensure_user db tg).1 p.user_id = false := by
        rw [← likeExists_of_likes_eq db (ensure_user db tg).2 (ensure_user db tg).1 p.user_id
          (ensure_user_likes db tg)]
        exact hl1
      exact (likeExists_false_iff db (ensure_user db tg).1 p.user_id).mp hl2
    unfold find_handler
    rw [hq]
  · intro M
    apply find_handler_congr { db with «matches» := M } db tg
    · rw [ensure_user_matches_update db tg M]
    · rw [ensure_user_matches_update db tg M]
    · intro x
      rw [ensure_user_matches_update db tg M]
    · rw [ensure_user_matches_update db tg M]
      exact List.forall₂_same.mpr (fun x _ => rowEqNB_refl x)
  · intro f
    have husers0 : List.Forall₂ RowEqNB db.users (mapBanned db f).users := by
      unfold mapBanned
      dsimp only
      exact List.forall₂_map_right_iff.mpr
        (List.forall₂_same.mpr (fun x _ => ⟨rfl, rfl, rfl, rfl⟩))
    have her := ensure_user_rel (R := RowEqNB) (fun u w hR => ⟨hR.1, hR.2.1⟩)
      (rfl : tg.id = tg.id) husers0
      ⟨allocId_rel (fun u w hR => hR.1) husers0, rfl, rfl, rfl⟩
    refine (find_handler_congr db (mapBanned db f) tg her.1 ?_ ?_ her.2).symm
    · rw [ensure_user_profiles, ensure_user_profiles]
      rfl
    · intro x
      rw [ensure_user_likes, ensure_user_likes, her.1]
      rfl
  · intro extra hextra
    apply find_handler_congr { db with likes := db.likes ++ extra } db tg
    · rw [ensure_user_likes_update db tg (db.likes ++ extra)]
    · rw [ensure_user_likes_update db tg (db.likes ++ extra)]
    · intro x
      rw [ensure_user_likes_update db tg (db.likes ++ extra)]
      show (db.likes ++ extra).any (fun l => l.from_user == (ensure_user db tg).1 && l.to_user == x)
        = (ensure_user db tg).2.likes.any (fun l => l.from_user == (ensure_user db tg).1 && l.to_user == x)
      rw [List.any_append, ensure_user_likes db tg]
      have hz : extra.any (fun l => l.from_user == (ensure_user db tg).1 && l.to_user == x) = false := by
        apply List.any_eq_false.mpr
        intro l hl hc
        simp only [Bool.and_eq_true, beq_iff_eq] at hc
        exact hextra l hl hc.1
      rw [hz, Bool.or_false]
    · rw [ensure_user_likes_update db tg (db.likes ++ extra)]
      exact List.forall₂_same.mpr (fun x _ => rowEqNB_refl x)

/-- Closed instance of `find_correct`: user 2 is banned, has liked the
requester, and shares a match with the requester, yet their profile is
returned; `/find` on an empty store answers "try later". -/
theorem find_correct_witness :
    (2 ≠ (ensure_user ⟨[⟨1, 7, none, some "a", 0⟩, ⟨2, 8, none, some "b", 1⟩],
        [⟨2, some 30, some "F", some "hi", none⟩], [⟨2, 1⟩], [⟨1, 2, 1⟩], []⟩ ⟨7, none, none, none⟩).1 ∧
      countLike ⟨[⟨1, 7, none, some "a", 0⟩, ⟨2, 8, none, some "b", 1⟩],
        [⟨2, some 30, some "F", some "hi", none⟩], [⟨2, 1⟩], [⟨1, 2, 1⟩], []⟩
        (ensure_user ⟨[⟨1, 7, none, some "a", 0⟩, ⟨2, 8, none, some "b", 1⟩],
          [⟨2, some 30, some "F", some "hi", none⟩], [⟨2, 1⟩], [⟨1, 2, 1⟩], []⟩ ⟨7, none, none, none⟩).1 2 = 0) ∧
    (find_handler emptyDB ⟨7, none, none, none⟩).2 =
      .tryLater "No profiles available right now. Try again later." := by
  constructor
  · exact (find_correct ⟨[⟨1, 7, none, some "a", 0⟩, ⟨2, 8, none, some "b", 1⟩],
      [⟨2, some 30, some "F", some "hi", none⟩], [⟨2, 1⟩], [⟨1, 2, 1⟩], []⟩ ⟨7, none, none, none⟩).1
      2 (some 30) (some "F") (some "hi") none none (some "b") (by decide)
  · exact (find_correct emptyDB ⟨7, none, none, none⟩).2.1
      (fun p hp => absurd hp (List.not_mem_nil p))

/-! ## C6: the relay requires an active match -/

/-- C6: a non-text message is rejected with the explanatory message, no
store change and no send; a text from a sender contained in no active match
row gets the "no active match" answer (in particular no send is attempted,
the outcome carrying no recipient); a send is attempted only when an active
match containing the sender exists. -/
theorem relay_requires_active_match (db : DB) (tg : TgUser) :
    relay_messages db tg none = (db, .onlyText "Only text messages are relayed in this prototype.") ∧
    (∀ text : String,
      ((∀ m ∈ db.matches, ¬((m.a = (ensure_user db tg).1 ∨ m.b = (ensure_user db tg).1) ∧ m.active = 1)) →
        (relay_messages db tg (some text)).2 =
          .noMatch "You don\x27t have an active match. Use /find to match with someone.") ∧
      (∀ to_tg payload, (relay_messages db tg (some text)).2 = .sendAttempt to_tg payload →
        ∃ m ∈ db.matches,
          (m.a = (ensure_user db tg).1 ∨ m.b = (ensure_user db tg).1) ∧ m.active = 1)) := by
  refine ⟨rfl, ?_⟩
  intro text
  constructor
  · intro hno
    have hfq : (ensure_user db tg).2.matches.find?
        (fun m => (m.a == (ensure_user db tg).1 || m.b == (ensure_user db tg).1) && m.active == 1) = none := by
      apply List.find?_eq_none.mpr
      intro m hm hc
      have hm0 : m ∈ db.matches := by
        rw [← ensure_user_matches db tg]
        exact hm
      simp only [Bool.and_eq_true, Bool.or_eq_true, beq_iff_eq] at hc
      exact hno m hm0 ⟨hc.1, hc.2⟩
    unfold relay_messages
    dsimp only
    rw [hfq]
  · intro to_tg payload hsend
    cases hfq : (ensure_user db tg).2.matches.find?
        (fun m => (m.a == (ensure_user db tg).1 || m.b == (ensure_user db tg).1) && m.active == 1) with
    | none =>
      have heq : (relay_messages db tg (some text)).2 =
          .noMatch "You don\x27t have an active match. Use /find to match with someone." := by
        unfold relay_messages
        dsimp only
        rw [hfq]
      rw [heq] at hsend
      cases hsend
    | some m =>
      have hm0 : m ∈ db.matches := by
        rw [← ensure_user_matches db tg]
        exact List.mem_of_find?_eq_some hfq
      have hc := List.find?_some hfq
      simp only [Bool.and_eq_true, Bool.or_eq_true, beq_iff_eq] at hc
      exact ⟨m, hm0, hc.1, hc.2⟩

/-- Closed instance of `relay_requires_active_match`. -/
theorem relay_requires_active_match_witness :
    (relay_messages ⟨[⟨1, 7, none, some "a", 0⟩], [], [], [], []⟩ ⟨7, none, none, none⟩ (some "hi")).2 =
      .noMatch "You don\x27t have an active match. Use /find to match with someone." ∧
    (∃ m ∈ ([⟨1, 2, 1⟩] : List MatchRow), (m.a = (1 : Int) ∨ m.b = (1 : Int)) ∧ m.active = 1) := by
  constructor
  · exact ((relay_requires_active_match ⟨[⟨1, 7, none, some "a", 0⟩], [], [], [], []⟩
      ⟨7, none, none, none⟩).2 "hi").1 (by decide)
  · exact ((relay_requires_active_match
      ⟨[⟨1, 7, none, some "a", 0⟩, ⟨2, 8, none, some "b", 0⟩], [], [], [⟨1, 2, 1⟩], []⟩
      ⟨7, none, none, none⟩).2 "hi").2 8 "Anonymous#1:\nhi" (by decide)

/-! ## C8: the relayed output is anonymous -/

/-- C8: the relay outcome is unchanged when the sender's stored name or
username fields differ (only the external id matters), and an attempted send
carries exactly the `Anonymous#<internal id>` label plus the text — never the
sender's name or username. -/
theorem relay_anonymous (db : DB) (tg tg2 : TgUser) (hid : tg.id = tg2.id) :
    (∀ text? : Option String, (relay_messages db tg text?).2 = (relay_messages db tg2 text?).2) ∧
    (∀ text to_tg payload, (relay_messages db tg (some text)).2 = .sendAttempt to_tg payload →
      payload = "Anonymous#" ++ toString (ensure_user db tg).1 ++ ":\n" ++ text) := by
  have husers0 : List.Forall₂ RowEqKey db.users db.users :=
    List.forall₂_same.mpr (fun x _ => ⟨rfl, rfl⟩)
  have her := ensure_user_rel (R := RowEqKey) (fun u w hR => ⟨hR.1, hR.2⟩) hid husers0 ⟨rfl, hid⟩
  constructor
  · intro text?
    cases text? with
    | none => rfl
    | some text =>
      unfold relay_messages
      dsimp only
      have hfind_eq : (ensure_user db tg).2.matches.find?
            (fun m => (m.a == (ensure_user db tg).1 || m.b == (ensure_user db tg).1) && m.active == 1)
          = (ensure_user db tg2).2.matches.find?
            (fun m => (m.a == (ensure_user db tg2).1 || m.b == (ensure_user db tg2).1) && m.active == 1) := by
        rw [ensure_user_matches db tg, ensure_user_matches db tg2, her.1]
      rw [← hfind_eq]
      cases hm : (ensure_user db tg).2.matches.find?
          (fun m => (m.a == (ensure_user db tg).1 || m.b == (ensure_user db tg).1) && m.active == 1) with
      | none => rfl
      | some m =>
        dsimp only
        rw [← her.1]
        cases find?_rel (R := RowEqKey)
            (p := fun u => u.id == (if m.a == (ensure_user db tg).1 then m.b else m.a))
            (q := fun u => u.id == (if m.a == (ensure_user db tg).1 then m.b else m.a))
            (fun u w hR => by simp only [hR.1]) her.2 with
        | inl hn =>
          rw [hn.1, hn.2]
        | inr hs =>
          obtain ⟨u, w, hR, hu, hw⟩ := hs
          rw [hu, hw]
          dsimp only
          rw [hR.2]
  · intro text to_tg payload hsend
    cases hfq : (ensure_user db tg).2.matches.find?
        (fun m => (m.a == (ensure_user db tg).1 || m.b == (ensure_user db tg).1) && m.active == 1) with
    | none =>
      have heq : (relay_messages db tg (some text)).2 =
          .noMatch "You don\x27t have an active match. Use /find to match with someone." := by
        unfold relay_messages
        dsimp only
        rw [hfq]
      rw [heq] at hsend
      cases hsend
    | some m =>
      cases hu2 : (ensure_user db tg).2.users.find?
          (fun u => u.id == (if m.a == (ensure_user db tg).1 then m.b else m.a)) with
      | none =>
        have heq : (relay_messages db tg (some text)).2 =
            .noContact "Could not find your match\x27s contact." := by
          unfold relay_messages
          dsimp only
          rw [hfq]
          dsimp only
          rw [hu2]
        rw [heq] at hsend
        cases hsend
      | some u =>
        have heq : (relay_messages db tg (some text)).2 =
            .sendAttempt u.tg_id ("Anonymous#" ++ toString (ensure_user db tg).1 ++ ":\n" ++ text) := by
          unfold relay_messages
          dsimp only
          rw [hfq]
          dsimp only
          rw [hu2]
        rw [heq] at hsend
        cases hsend
        rfl

/-- Closed instance of `relay_anonymous`: two senders sharing the external
id but with different names and usernames produce the same relayed output,
whose payload shows only the anonymous label. -/
theorem relay_anonymous_witness :
    ((relay_messages ⟨[⟨1, 7, some "u1", some "Real Name", 0⟩, ⟨2, 8, none, some "b", 0⟩],
        [], [], [⟨1, 2, 1⟩], []⟩ ⟨7, some "u1", some "Real", some "Name"⟩ (some "hi")).2 =
      (relay_messages ⟨[⟨1, 7, some "u1", some "Real Name", 0⟩, ⟨2, 8, none, some "b", 0⟩],
        [], [], [⟨1, 2, 1⟩], []⟩ ⟨7, some "other", some "Fake", none⟩ (some "hi")).2) ∧
    "Anonymous#1:\nhi" = "Anonymous#" ++ toString (ensure_user
      ⟨[⟨1, 7, some "u1", some "Real Name", 0⟩, ⟨2, 8, none, some "b", 0⟩],
        [], [], [⟨1, 2, 1⟩], []⟩ ⟨7, some "u1", some "Real", some "Name"⟩).1 ++ ":\n" ++ "hi" := by
  constructor
  · exact (relay_anonymous ⟨[⟨1, 7, some "u1", some "Real Name", 0⟩, ⟨2, 8, none, some "b", 0⟩],
      [], [], [⟨1, 2, 1⟩], []⟩ ⟨7, some "u1", some "Real", some "Name"⟩
      ⟨7, some "other", some "Fake", none⟩ rfl).1 (some "hi")
  · exact (relay_anonymous ⟨[⟨1, 7, some "u1", some "Real Name", 0⟩, ⟨2, 8, none, some "b", 0⟩],
      [], [], [⟨1, 2, 1⟩], []⟩ ⟨7, some "u1", some "Real", some "Name"⟩
      ⟨7, some "u1", some "Real", some "Name"⟩ rfl).2 "hi" 8 "Anonymous#1:\nhi" (by decide)

/-! ## C1: mutual likes yield exactly one match -/

/-- The inductive invariant of the like/match tables: the number of match
rows for an unordered pair is one exactly when both likes exist, zero
otherwise. -/
def LikeMatchInv (db : DB) : Prop :=
  ∀ X Y : Int, countMatch db X Y =
    (if likeExists db X Y && likeExists db Y X then 1 else 0)

theorem likeMatchInv_of_eq (db db2 : DB) (hL : db2.likes = db.likes)
    (hM : db2.matches = db.matches) (h : LikeMatchInv db) : LikeMatchInv db2 := by
  intro X Y
  rw [countMatch_of_matches_eq db db2 X Y hM, likeExists_of_likes_eq db db2 X Y hL,
    likeExists_of_likes_eq db db2 Y X hL]
  exact h X Y

theorem insertLike_of_exists (db : DB) (f t : Int) (h : likeExists db f t = true) :
    insertLike db f t = db := by
  unfold insertLike
  rw [if_pos h]

theorem insertLike_of_absent (db : DB) (f t : Int) (h : likeExists db f t = false) :
    insertLike db f t = { db with likes := db.likes ++ [⟨f, t⟩] } := by
  unfold insertLike
  rw [if_neg (by rw [h]; exact Bool.false_ne_true)]

theorem matchIfAbsent_of_absent (db : DB) (f t : Int) (h : matchExists db f t = false) :
    matchIfAbsent db f t = { db with «matches» := db.matches ++ [⟨f, t, 1⟩] } := by
  unfold matchIfAbsent
  rw [if_neg (by rw [h]; exact Bool.false_ne_true)]

theorem likeExists_append_single (db : DB) (f t X Y : Int) :
    likeExists { db with likes := db.likes ++ [⟨f, t⟩] } X Y
      = (likeExists db X Y || (f == X && t == Y)) := by
  unfold likeExists
  dsimp only
  rw [List.any_append]
  simp [List.any_cons]

theorem countMatch_append_single (db : DB) (f t X Y : Int) :
    countMatch { db with «matches» := db.matches ++ [⟨f, t, 1⟩] } X Y
      = countMatch db X Y + (if ((f == X && t == Y) || (f == Y && t == X)) = true then 1 else 0) := by
  unfold countMatch
  dsimp only
  rw [List.countP_append ..]
  simp [List.countP_cons]

theorem matchExists_true_of_count_one (db : DB) (f t : Int) (h : countMatch db f t = 1) :
    matchExists db f t = true := by
  by_cases hx : matchExists db f t = true
  · exact hx
  · have h0 := (matchExists_false_iff db f t).mp (Bool.eq_false_iff.mpr hx)
    rw [h0] at h
    cases h

/-- One like action preserves the like/match invariant. -/
theorem likeMatchInv_recordLike (db : DB) (f t : Int) (h : LikeMatchInv db) :
    LikeMatchInv (recordLike db f t) := by
  rw [recordLike_eq]
  by_cases hIns : likeExists db f t = true
  · rw [insertLike_of_exists db f t hIns]
    by_cases hm : likeExists db t f = true
    · rw [if_pos hm]
      have hcount : countMatch db f t = 1 := by
        rw [h f t, hIns, hm]
        rfl
      rw [matchIfAbsent_of_exists db f t (matchExists_true_of_count_one db f t hcount)]
      exact h
    · rw [if_neg hm]
      exact h
  · have hIns0 : likeExists db f t = false := Bool.eq_false_iff.mpr hIns
    rw [insertLike_of_absent db f t hIns0]
    by_cases hm : likeExists { db with likes := db.likes ++ [(⟨f, t⟩ : LikeRow)] } t f = true
    · rw [if_pos hm]
      have hm2 : (likeExists db t f || (f == t && t == f)) = true := by
        rw [← likeExists_append_single db f t t f]
        exact hm
      have hcz : countMatch { db with likes := db.likes ++ [(⟨f, t⟩ : LikeRow)] } f t = 0 := by
        rw [countMatch_of_matches_eq db { db with likes := db.likes ++ [(⟨f, t⟩ : LikeRow)] } f t rfl,
          h f t, hIns0]
        rfl
      have hmz : matchExists { db with likes := db.likes ++ [(⟨f, t⟩ : LikeRow)] } f t = false :=
        (matchExists_false_iff { db with likes := db.likes ++ [(⟨f, t⟩ : LikeRow)] } f t).mpr hcz
      have hfull : matchIfAbsent { db with likes := db.likes ++ [(⟨f, t⟩ : LikeRow)] } f t
          = { db with
                likes := db.likes ++ [(⟨f, t⟩ : LikeRow)],
                «matches» := db.matches ++ [(⟨f, t, 1⟩ : MatchRow)] } := by
        rw [matchIfAbsent_of_absent { db with likes := db.likes ++ [(⟨f, t⟩ : LikeRow)] } f t hmz]
      rw [hfull]
      intro X Y
      have e1 : countMatch { db with
            likes := db.likes ++ [(⟨f, t⟩ : LikeRow)],
            «matches» := db.matches ++ [(⟨f, t, 1⟩ : MatchRow)] } X Y
          = countMatch db X Y + (if ((f == X && t == Y) || (f == Y && t == X)) = true then 1 else 0) := by
        unfold countMatch
        dsimp only
        rw [List.countP_append ..]
        simp [List.countP_cons]
      have e2 : ∀ Z W : Int, likeExists { db with
            likes := db.likes ++ [(⟨f, t⟩ : LikeRow)],
            «matches» := db.matches ++ [(⟨f, t, 1⟩ : MatchRow)] } Z W
          = (likeExists db Z W || (f == Z && t == W)) := by
        intro Z W
        unfold likeExists
        dsimp only
        rw [List.any_append]
        simp [List.any_cons]
      rw [e1, e2 X Y, e2 Y X, h X Y]
      by_cases ha : f = X ∧ t = Y
      · obtain ⟨h1, h2⟩ := ha
        subst h1
        subst h2
        simp [hIns0, hm2]
      · by_cases hb : f = Y ∧ t = X
        · obtain ⟨h1, h2⟩ := hb
          subst h1
          subst h2
          simp [hIns0, hm2]
        · have ha' : (f == X && t == Y) = false := by
            rw [Bool.eq_false_iff]
            intro hc
            simp only [Bool.and_eq_true, beq_iff_eq] at hc
            exact ha hc
          have hb' : (f == Y && t == X) = false := by
            rw [Bool.eq_false_iff]
            intro hc
            simp only [Bool.and_eq_true, beq_iff_eq] at hc
            exact hb hc
          simp [ha', hb']
    · rw [if_neg hm]
      have hm0 : (likeExists db t f || (f == t && t == f)) = false := by
        rw [← likeExists_append_single db f t t f]
        exact Bool.eq_false_iff.mpr hm
      have hm1 : likeExists db t f = false := by
        cases hx : likeExists db t f
        · rfl
        · rw [hx] at hm0
          cases hm0
      have hm3 : (f == t && t == f) = false := by
        cases hx : (f == t && t == f)
        · rfl
        · rw [hx, Bool.or_true] at hm0
          cases hm0
      intro X Y
      rw [countMatch_of_matches_eq db { db with likes := db.likes ++ [(⟨f, t⟩ : LikeRow)] } X Y rfl,
        h X Y, likeExists_append_single db f t X Y, likeExists_append_single db f t Y X]
      by_cases ha : f = X ∧ t = Y
      · obtain ⟨h1, h2⟩ := ha
        subst h1
        subst h2
        simp [hIns0, hm1, hm3]
      · by_cases hb : f = Y ∧ t = X
        · obtain ⟨h1, h2⟩ := hb
          subst h1
          subst h2
          simp [hIns0, hm1, hm3]
        · have ha' : (f == X && t == Y) = false := by
            rw [Bool.eq_false_iff]
            intro hc
            simp only [Bool.and_eq_true, beq_iff_eq] at hc
            exact ha hc
          have hb' : (f == Y && t == X) = false := by
            rw [Bool.eq_false_iff]
            intro hc
            simp only [Bool.and_eq_true, beq_iff_eq] at hc
            exact hb hc
          simp [ha', hb']

theorem likeAction_fst (db : DB) (f t : Int) : (likeAction db f t).1 = recordLike db f t := by
  unfold likeAction recordLike
  split <;> rfl

/-- A whole button press preserves the like/match invariant. -/
theorem likeMatchInv_callbackStep (db : DB) (tg : TgUser) (data : String)
    (h : LikeMatchInv db) : LikeMatchInv (callbackStep db tg data).1 := by
  have hdb1 : LikeMatchInv (ensure_user db tg).2 :=
    likeMatchInv_of_eq db (ensure_user db tg).2 (ensure_user_likes db tg)
      (ensure_user_matches db tg) h
  unfold callbackStep
  cases hp : parseCallback data with
  | none => exact h
  | some pr =>
    obtain ⟨action, target⟩ := pr
    dsimp only
    by_cases hskip : (action == "skip") = true
    · rw [if_pos hskip]
      exact hdb1
    · rw [if_neg hskip]
      by_cases hlike : (action == "like") = true
      · rw [if_pos hlike]
        rw [likeAction_fst]
        exact likeMatchInv_recordLike (ensure_user db tg).2 (ensure_user db tg).1 target hdb1
      · rw [if_neg hlike]
        exact hdb1

theorem runCallbacks_inv (db : DB) (presses : List (TgUser × String)) (h : LikeMatchInv db) :
    LikeMatchInv (runCallbacks db presses) := by
  induction presses generalizing db with
  | nil => exact h
  | cons pr rest ih =>
    obtain ⟨tg, data⟩ := pr
    exact ih (callbackStep db tg data).1 (likeMatchInv_callbackStep db tg data h)

/-- C1: starting from any store satisfying the like/match invariant (the
fresh store does), any sequence of button presses preserves it; in
particular whenever `Like(X→Y)` and `Like(Y→X)` both exist afterwards,
exactly one match row exists for the unordered pair `{X,Y}`. -/
theorem mutual_like_unique_match (db0 : DB) (presses : List (TgUser × String))
    (h : LikeMatchInv db0) :
    LikeMatchInv (runCallbacks db0 presses) ∧
    ∀ X Y : Int, likeExists (runCallbacks db0 presses) X Y = true →
      likeExists (runCallbacks db0 presses) Y X = true →
      countMatch (runCallbacks db0 presses) X Y = 1 := by
  have hinv := runCallbacks_inv db0 presses h
  refine ⟨hinv, ?_⟩
  intro X Y h1 h2
  rw [hinv X Y, h1, h2]
  rfl

/-- Closed instance of `mutual_like_unique_match`: with both like presses
performed (one of them twice), exactly one match row exists for the pair. -/
theorem mutual_like_unique_match_witness :
    countMatch (runCallbacks emptyDB
      [(⟨100, none, some "A", none⟩, "like:2"), (⟨200, none, some "B", none⟩, "like:1"),
       (⟨200, none, some "B", none⟩, "like:1")]) 1 2 = 1 := by
  apply (mutual_like_unique_match emptyDB
    [(⟨100, none, some "A", none⟩, "like:2"), (⟨200, none, some "B", none⟩, "like:1"),
     (⟨200, none, some "B", none⟩, "like:1")] (fun X Y => rfl)).2 1 2
  · decide
  · decide

/-! ## C4: the age gate -/

/-- In the states past the age question, the collected age is at least 18. -/
def AgeOK (cs? : Option ConvState) (ud : UserData) : Prop :=
  (cs? = some .aGender ∨ cs? = some .aBio ∨ cs? = some .aPhoto) →
    ∃ a, ud.age = some a ∧ 18 ≤ a

/-- Every profile row is either original or was written with age ≥ 18. -/
def ProfilesOK (db0 db : DB) : Prop :=
  ∀ p ∈ db.profiles, p ∈ db0.profiles ∨ ∃ a, p.age = some a ∧ 18 ≤ a

theorem ageOK_untracked (ud : UserData) (cs? : Option ConvState)
    (h : cs? ≠ some .aGender ∧ cs? ≠ some .aBio ∧ cs? ≠ some .aPhoto) : AgeOK cs? ud := by
  intro hor
  rcases hor with h1 | h1 | h1
  exacts [absurd h1 h.1, absurd h1 h.2.1, absurd h1 h.2.2]

theorem saveProfile_profiles (db : DB) (tg : TgUser) (ud : UserData) (ph : Option String) :
    (saveProfile db tg ud ph).profiles =
      db.profiles.filter (fun p => !(p.user_id == (ensure_user db tg).1)) ++
        [⟨(ensure_user db tg).1, ud.age, ud.gender, ud.bio, ph⟩] := by
  unfold saveProfile
  dsimp only
  rw [ensure_user_profiles db tg]

theorem profilesOK_save (db0 db : DB) (tg : TgUser) (ud : UserData) (ph : Option String)
    (hP : ProfilesOK db0 db) (hage : ∃ a, ud.age = some a ∧ 18 ≤ a) :
    ProfilesOK db0 (saveProfile db tg ud ph) := by
  intro p hp
  rw [saveProfile_profiles db tg ud ph] at hp
  rcases List.mem_append.mp hp with h1 | h1
  · exact hP p (List.mem_of_mem_filter h1)
  · obtain ⟨a, ha, h18⟩ := hage
    right
    refine ⟨a, ?_, h18⟩
    rw [List.mem_singleton.mp h1]
    exact ha

/-- One dialogue step preserves both invariants. -/
theorem convStep_preserves (db0 db : DB) (tg : TgUser) (cs : ConvState) (ud : UserData)
    (i : DlgInput) (hAge : AgeOK (some cs) ud) (hP : ProfilesOK db0 db) :
    AgeOK (convStep db tg cs ud i).state (convStep db tg cs ud i).ud ∧
    ProfilesOK db0 (convStep db tg cs ud i).db := by
  cases i with
  | text s =>
    cases cs with
    | aName =>
      unfold convStep
      dsimp only
      split
      · exact ⟨hAge, hP⟩
      · unfold profile_name
        split
        · exact ⟨hAge, hP⟩
        · exact ⟨ageOK_untracked _ (some .aAge) (by decide), hP⟩
    | aAge =>
      unfold convStep
      dsimp only
      split
      · exact ⟨hAge, hP⟩
      · unfold profile_age
        split
        · exact ⟨ageOK_untracked _ (some .aAge) (by decide), hP⟩
        · split
          · exact ⟨ageOK_untracked _ none (by decide), hP⟩
          · rename_i hnd hlt
            refine ⟨?_, hP⟩
            intro _
            exact ⟨(digitsToNat? (pyStrip s).data).getD 0, rfl, Nat.le_of_not_lt hlt⟩
    | aGender =>
      unfold convStep
      dsimp only
      split
      · exact ⟨hAge, hP⟩
      · unfold profile_gender
        refine ⟨?_, hP⟩
        intro _
        exact hAge (Or.inl rfl)
    | aBio =>
      unfold convStep
      dsimp only
      split
      · exact ⟨hAge, hP⟩
      · unfold profile_bio
        refine ⟨?_, hP⟩
        intro _
        exact hAge (Or.inr (Or.inl rfl))
    | aPhoto =>
      unfold convStep
      dsimp only
      split
      · exact ⟨hAge, hP⟩
      · exact ⟨hAge, hP⟩
  | photoMsg fid =>
    cases cs with
    | aPhoto =>
      unfold convStep profile_photo
      dsimp only
      refine ⟨ageOK_untracked _ none (by decide), ?_⟩
      exact profilesOK_save db0 db tg { ud with photo := some fid } (some fid) hP
        (hAge (Or.inr (Or.inr rfl)))
    | aName => exact ⟨hAge, hP⟩
    | aAge => exact ⟨hAge, hP⟩
    | aGender => exact ⟨hAge, hP⟩
    | aBio => exact ⟨hAge, hP⟩
  | skipCmd =>
    cases cs with
    | aPhoto =>
      unfold convStep skip_photo
      dsimp only
      refine ⟨ageOK_untracked _ none (by decide), ?_⟩
      exact profilesOK_save db0 db tg ud none hP (hAge (Or.inr (Or.inr rfl)))
    | aName => exact ⟨hAge, hP⟩
    | aAge => exact ⟨hAge, hP⟩
    | aGender => exact ⟨hAge, hP⟩
    | aBio => exact ⟨hAge, hP⟩
  | startCmd => exact ⟨hAge, hP⟩

theorem runDialogue_profilesOK (db0 : DB) (tg : TgUser) :
    ∀ (inputs : List DlgInput) (db : DB) (cs? : Option ConvState) (ud : UserData),
      AgeOK cs? ud → ProfilesOK db0 db →
      ProfilesOK db0 (runDialogue db tg cs? ud inputs).1 := by
  intro inputs
  induction inputs with
  | nil => exact fun db cs? ud _ hP => hP
  | cons i rest ih =>
    intro db cs? ud hAge hP
    cases cs? with
    | none =>
      cases i with
      | startCmd => exact ih db (some .aName) ud (ageOK_untracked _ _ (by decide)) hP
      | text s => exact ih db none ud (ageOK_untracked _ _ (by decide)) hP
      | photoMsg fid => exact ih db none ud (ageOK_untracked _ _ (by decide)) hP
      | skipCmd => exact ih db none ud (ageOK_untracked _ _ (by decide)) hP
    | some cs =>
      have h2 := convStep_preserves db0 db tg cs ud i hAge hP
      exact ih (convStep db tg cs ud i).db (convStep db tg cs ud i).state
        (convStep db tg cs ud i).ud h2.1 h2.2

/-- C4: in `AwaitingAge`, a non-command input that does not parse as a
non-negative integer re-prompts and stays in the same state with no store
change; a parsed age below 18 terminates the dialogue immediately with no
store change; a parsed age of at least 18 advances to the gender question;
and along any dialogue run started at `AwaitingName`, every profile row ever
written carries an age of at least 18 — so an under-18 submission never
produces a profile row. -/
theorem age_floor (db : DB) (tg : TgUser) (ud : UserData) (s : String) :
    (¬ isCommandText s = true → pyIsDigit (pyStrip s) = false →
      convStep db tg .aAge ud (.text s) =
        ⟨db, some .aAge, ud, some "Please send a number for age."⟩) ∧
    (¬ isCommandText s = true → pyIsDigit (pyStrip s) = true →
      (digitsToNat? (pyStrip s).data).getD 0 < 18 →
      convStep db tg .aAge ud (.text s) =
        ⟨db, none, ud, some "You must be 18+ to use this bot."⟩) ∧
    (¬ isCommandText s = true → pyIsDigit (pyStrip s) = true →
      18 ≤ (digitsToNat? (pyStrip s).data).getD 0 →
      convStep db tg .aAge ud (.text s) =
        ⟨db, some .aGender, { ud with age := some ((digitsToNat? (pyStrip s).data).getD 0) },
          some "What\x27s your gender? (Male/Female/Other)"⟩) ∧
    (∀ inputs : List DlgInput, ∀ p ∈ (runDialogue db tg (some .aName) {} inputs).1.profiles,
      p ∈ db.profiles ∨ ∃ a, p.age = some a ∧ 18 ≤ a) := by
  refine ⟨?_, ?_, ?_, ?_⟩
  · intro hcmd hd
    unfold convStep
    dsimp only
    rw [if_neg hcmd]
    unfold profile_age
    rw [if_pos (by rw [hd]; rfl)]
  · intro hcmd hd hlt
    unfold convStep
    dsimp only
    rw [if_neg hcmd]
    unfold profile_age
    rw [if_neg (by rw [hd]; exact Bool.false_ne_true), if_pos hlt]
  · intro hcmd hd h18
    unfold convStep
    dsimp only
    rw [if_neg hcmd]
    unfold profile_age
    rw [if_neg (by rw [hd]; exact Bool.false_ne_true), if_neg (Nat.not_lt.mpr h18)]
  · intro inputs
    exact runDialogue_profilesOK db tg inputs db (some .aName) {}
      (ageOK_untracked _ (some .aName) (by decide))
      (fun p hp => Or.inl hp)

/-- Closed instance of `age_floor`: the input "17" ends the dialogue with no
store change; a complete adult run writes a profile with age 20. -/
theorem age_floor_witness :
    convStep emptyDB ⟨7, none, none, none⟩ .aAge {} (.text "17") =
      ⟨emptyDB, none, {}, some "You must be 18+ to use this bot."⟩ ∧
    convStep emptyDB ⟨7, none, none, none⟩ .aAge {} (.text "x") =
      ⟨emptyDB, some .aAge, {}, some "Please send a number for age."⟩ := by
  constructor
  · exact (age_floor emptyDB ⟨7, none, none, none⟩ {} "17").2.1 (by decide) (by decide) (by decide)
  · exact (age_floor emptyDB ⟨7, none, none, none⟩ {} "x").1 (by decide) (by decide)

end SoulMatch
